import Mathlib

/-!
A shallow embedding of `src/main.rs` of norowachi/rustgame: a terminal
application moving a (row, column) cursor over a fixed 3×3 grid.

The embedding mirrors the source structure by structure:
`TableState` models the ratatui `TableState` fields the program uses
(`selected`, `selected_column`); `App` models `struct App` with its
`state`, `items`, `colors` and `placement` fields (`placement` is the
two-element `vec![1, 1]`, modelled as a pair: component 1 is
`placement[0]`, component 2 is `placement[1]`); the four directional
operations, `draw` and the key-event dispatch of `run` are translated
line by line. Rendering is modelled as the list of widgets a draw call
hands to the backend.
-/

namespace RustGame

/-- Colors used by the program: `Color::Red`, and the tailwind palette
constants `SLATE.cN` / `BLUE.cN` referenced by `TableColors::new` with
`PALETTES[0] = tailwind::BLUE`. -/
inductive Color where
  | red : Color
  | slate (shade : Nat) : Color
  | blue (shade : Nat) : Color
  deriving DecidableEq

/-- The part of a `tailwind::Palette` the program reads (`c400`, `c600`). -/
structure Palette where
  c400 : Color
  c600 : Color
  deriving DecidableEq

/-- `tailwind::BLUE`, restricted to the shades the program reads. -/
def tailwindBLUE : Palette := ⟨Color.blue 400, Color.blue 600⟩

/-- `struct TableColors` from the source. -/
structure TableColors where
  buffer_bg : Color
  row_fg : Color
  selected_row_style_fg : Color
  selected_column_style_fg : Color
  selected_cell_style_fg : Color
  normal_row_color : Color
  alt_row_color : Color
  deriving DecidableEq

/-- `TableColors::new` from the source. -/
def TableColors.new (color : Palette) : TableColors :=
  { buffer_bg := Color.slate 950
    row_fg := Color.slate 200
    selected_row_style_fg := color.c400
    selected_column_style_fg := color.c400
    selected_cell_style_fg := color.c600
    normal_row_color := Color.slate 950
    alt_row_color := Color.slate 900 }

/-- The fields of ratatui `TableState` the program uses: the selected row
and the selected column of the table widget. -/
structure TableState where
  selected : Option Nat
  selected_column : Option Nat
  deriving DecidableEq

/-- `TableState::default()`: nothing selected. -/
def TableState.default : TableState := ⟨none, none⟩

/-- `TableState::with_selected(i)`. -/
def TableState.with_selected (s : TableState) (i : Nat) : TableState :=
  { s with selected := some i }

/-- `TableState::select(i)`. -/
def TableState.select (s : TableState) (i : Option Nat) : TableState :=
  { s with selected := i }

/-- `TableState::select_column(i)`. -/
def TableState.select_column (s : TableState) (i : Option Nat) : TableState :=
  { s with selected_column := i }

/-- `struct App` from the source. `placement` models the two-element
`Vec<usize>`: component 1 is `placement[0]` (row), component 2 is
`placement[1]` (column). -/
structure App where
  state : TableState
  items : List (List String)
  colors : TableColors
  placement : Nat × Nat
  deriving DecidableEq

/-- `App::new()` from the source: widget row selection 0, the 3×3 digit
grid, the BLUE palette, and `placement = vec![1, 1]`. -/
def App.new : App :=
  { state := TableState.default.with_selected 0
    items := [["1", "2", "3"], ["4", "5", "6"], ["7", "8", "9"]]
    colors := TableColors.new tailwindBLUE
    placement := (1, 1) }

/-- `App::next_row` from the source: the new `placement[0]` is computed
from `self.state.selected()` (not from `placement[0]`), wrapping at
`items.len() - 1` and defaulting to 0 on `None`. -/
def App.next_row (a : App) : App :=
  let i := match a.state.selected with
    | some i => if a.items.length - 1 ≤ i then 0 else i + 1
    | none => 0
  { a with placement := (i, a.placement.2) }

/-- `App::previous_row` from the source: the new `placement[0]` is
computed from `self.state.selected()`, wrapping at 0 up to
`items.len() - 1` and defaulting to 0 on `None`. -/
def App.previous_row (a : App) : App :=
  let i := match a.state.selected with
    | some i => if i = 0 then a.items.length - 1 else i - 1
    | none => 0
  { a with placement := (i, a.placement.2) }

/-- `App::next_column` from the source: reads and writes `placement[1]`
directly, wrapping at 2. -/
def App.next_column (a : App) : App :=
  if a.placement.2 = 2 then { a with placement := (a.placement.1, 0) }
  else { a with placement := (a.placement.1, a.placement.2 + 1) }

/-- `App::previous_column` from the source: reads and writes
`placement[1]` directly, wrapping at 0 up to 2. -/
def App.previous_column (a : App) : App :=
  if a.placement.2 = 0 then { a with placement := (a.placement.1, 2) }
  else { a with placement := (a.placement.1, a.placement.2 - 1) }

/-- The drawing area handed to one `draw` call (`frame.area()`); only its
width and height are inspected by the program. -/
structure Rect where
  width : Nat
  height : Nat
  deriving DecidableEq

/-- One widget handed to the drawing backend during a frame: a paragraph
with its text, alignment, wrapping and foreground color, or the stateful
table with the widget state it is rendered with. -/
inductive RWidget where
  | paragraph (text : String) (centered : Bool) (wrapped : Bool) (fg : Option Color)
  | table (state : TableState)
  deriving DecidableEq

/-- The literal warning text of the source:
`Paragraph::new("Terminal size too small.\nMinimum size is 30x10.")`. -/
def warningText : String := "Terminal size too small.\nMinimum size is 30x10."

/-- `App::draw` from the source. If the area is below 30×10 it renders
only the centered, wrapped, red warning paragraph and leaves the state
untouched; otherwise it first syncs the widget state from `placement`
(`state.select(Some(placement[0]))`, `state.select_column(Some(placement[1]))`)
and then renders the title paragraph and the stateful table. Returns the
updated `App` and the list of widgets rendered this frame, in render
order. -/
def App.draw (a : App) (area : Rect) : App × List RWidget :=
  let min_width := 30
  let min_height := 10
  if area.width < min_width ∨ area.height < min_height then
    (a, [RWidget.paragraph warningText true true (some Color.red)])
  else
    let a2 := { a with
      state := (a.state.select (some a.placement.1)).select_column (some a.placement.2) }
    (a2, [RWidget.paragraph "You VS Bot" true false none, RWidget.table a2.state])

/-- Modelled from the spec: the ratatui `Table` render (library code not
in this repository) applies the cell-highlight style to the single cell
at the intersection of the widget state's selected row and selected
column. This returns that cell's display value. -/
def App.highlightedCell (a : App) : Option String :=
  match a.state.selected, a.state.selected_column with
  | some r, some c => (a.items.get? r).bind (fun row => row.get? c)
  | _, _ => none

/-- Crossterm key modifiers as the program inspects them; the pattern
`KeyModifiers::CONTROL` matches exactly the value with only the control
bit set. -/
structure KeyModifiers where
  control : Bool
  shift : Bool
  alt : Bool
  deriving DecidableEq

/-- `KeyModifiers::CONTROL`. -/
def KeyModifiers.CONTROL : KeyModifiers := ⟨true, false, false⟩

/-- The key codes the program distinguishes, plus representatives of
codes it ignores. -/
inductive KeyCode where
  | char (c : Char)
  | esc
  | down
  | up
  | right
  | left
  | enter
  | tab
  deriving DecidableEq

/-- Crossterm `KeyEventKind`. -/
inductive KeyEventKind where
  | press
  | release
  | keyRepeat
  deriving DecidableEq

/-- A crossterm key event as the program inspects it. -/
structure KeyEvent where
  code : KeyCode
  modifiers : KeyModifiers
  kind : KeyEventKind
  deriving DecidableEq

/-- A crossterm event: key events, and representatives of the non-key
events the loop ignores. -/
inductive Event where
  | key (k : KeyEvent)
  | resize (w h : Nat)
  | focusGained
  deriving DecidableEq

/-- The outcome of handling one event in `App::run`: either the loop
returns `Ok(())` (quit) or it continues with the updated state. -/
inductive StepResult where
  | quit
  | next (a : App)
  deriving DecidableEq

/-- The event dispatch of `App::run`, translated arm by arm from the
`match (key.modifiers, key.code)`; the if-chain preserves the source's
first-match-wins order. Only key events of kind `Press` are acted on. -/
def App.handleEvent (a : App) (e : Event) : StepResult :=
  match e with
  | Event.key k =>
    if k.kind = KeyEventKind.press then
      if (k.code = KeyCode.char 'q' ∨ k.code = KeyCode.esc) ∨
          (k.modifiers = KeyModifiers.CONTROL ∧ k.code = KeyCode.char 'c') then
        StepResult.quit
      else if k.code = KeyCode.char 's' ∨ k.code = KeyCode.down then
        StepResult.next a.next_row
      else if k.code = KeyCode.char 'w' ∨ k.code = KeyCode.up then
        StepResult.next a.previous_row
      else if k.code = KeyCode.char 'd' ∨ k.code = KeyCode.right then
        StepResult.next a.next_column
      else if k.code = KeyCode.char 'a' ∨ k.code = KeyCode.left then
        StepResult.next a.previous_column
      else StepResult.next a
    else StepResult.next a
  | _ => StepResult.next a

/-- One abstract operation applied to the application state: one of the
four directional operations, or one draw call on a given area. -/
inductive Op where
  | nextRow
  | previousRow
  | nextColumn
  | previousColumn
  | draw (area : Rect)
  deriving DecidableEq

/-- Apply one operation to the state (a draw keeps the state component of
`App::draw`). -/
def Op.apply : Op → App → App
  | Op.nextRow, a => a.next_row
  | Op.previousRow, a => a.previous_row
  | Op.nextColumn, a => a.next_column
  | Op.previousColumn, a => a.previous_column
  | Op.draw area, a => (a.draw area).1

/-- Run a sequence of operations from a starting state. -/
def runOps (ops : List Op) (a : App) : App :=
  ops.foldl (fun s o => Op.apply o s) a

/-- The invariant maintained by every operation: `placement` is within
the 3×3 grid, the widget row selection is `Some` of an in-bounds row, and
the item grid keeps its three rows. -/
def AppInv (a : App) : Prop :=
  a.placement.1 < 3 ∧ a.placement.2 < 3 ∧
    (∃ i, a.state.selected = some i ∧ i < 3) ∧ a.items.length = 3

/-- A drawing area comfortably above the 30×10 minimum, used for concrete
scenario runs. -/
def bigArea : Rect := ⟨80, 24⟩

/-- The end-to-end scenario of the main loop: starting from `App::new`,
alternate draw (on a large frame) and event handling for the events
Down, Down, Right, ending with the final draw's state. -/
def scenarioFinal : App :=
  let a0 := (App.new.draw bigArea).1
  let a1 := ((a0.next_row).draw bigArea).1
  let a2 := ((a1.next_row).draw bigArea).1
  ((a2.next_column).draw bigArea).1

/-- A coherent cursor state used as a concrete input in several
counterexamples: `placement = (1, 1)` with the widget row selection
synced to `Some 1`. -/
def syncedApp : App := { App.new with state := ⟨some 1, none⟩ }

end RustGame

namespace RustGame

/-- C1: on a coherent cursor state (widget row selection synced with
`placement[0]`, both coordinates in bounds for the 3×3 grid), the four
directional operations wrap exactly as stated: `next_row` sends row 2 to
0 and otherwise increments, `previous_row` sends row 0 to 2 and otherwise
decrements, and likewise for the column operations at bound 2. -/
theorem c1_directional_wrap (a : App) (r c : Nat)
    (hs : a.state.selected = some r) (hp : a.placement = (r, c))
    (hi : a.items.length = 3) (hr : r < 3) (hc : c < 3) :
    (a.next_row).placement = (if r = 2 then 0 else r + 1, c) ∧
    (a.previous_row).placement = (if r = 0 then 2 else r - 1, c) ∧
    (a.next_column).placement = (r, if c = 2 then 0 else c + 1) ∧
    (a.previous_column).placement = (r, if c = 0 then 2 else c - 1) := by
  refine ⟨?_, ?_, ?_, ?_⟩ <;>
    simp [App.next_row, App.previous_row, App.next_column, App.previous_column, hs, hi, hp] <;>
    split_ifs <;> first | rfl | omega

/-- Witness for C1 at the concrete coherent state with cursor (1, 1). -/
theorem c1_directional_wrap_witness :
    (syncedApp.next_row).placement = (2, 1) ∧
    (syncedApp.previous_row).placement = (0, 1) ∧
    (syncedApp.next_column).placement = (1, 2) ∧
    (syncedApp.previous_column).placement = (1, 0) := by
  have h := c1_directional_wrap syncedApp 1 1 rfl rfl rfl (by decide) (by decide)
  simpa using h

/-- C8: row operations never change `placement[1]` (the cursor column)
and column operations never change `placement[0]` (the cursor row), for
every application state. -/
theorem c8_axis_independence (a : App) :
    (a.next_row).placement.2 = a.placement.2 ∧
    (a.previous_row).placement.2 = a.placement.2 ∧
    (a.next_column).placement.1 = a.placement.1 ∧
    (a.previous_column).placement.1 = a.placement.1 := by
  refine ⟨?_, ?_, ?_, ?_⟩ <;>
    simp [App.next_row, App.previous_row, App.next_column, App.previous_column] <;>
    split_ifs <;> rfl

/-- Every operation preserves the application invariant: `placement` in
bounds, widget row selection `Some` of an in-bounds row, three item rows. -/
theorem appInv_apply (o : Op) (a : App) (h : AppInv a) : AppInv (Op.apply o a) := by
  obtain ⟨h1, h2, ⟨i, hsel, hi3⟩, h4⟩ := h
  cases o with
  | nextRow =>
    refine ⟨?_, ?_, ⟨i, ?_, hi3⟩, ?_⟩ <;>
      simp [Op.apply, App.next_row, hsel, h4] <;>
      (try split_ifs) <;> (try simp_all) <;> omega
  | previousRow =>
    refine ⟨?_, ?_, ⟨i, ?_, hi3⟩, ?_⟩ <;>
      simp [Op.apply, App.previous_row, hsel, h4] <;>
      (try split_ifs) <;> (try simp_all) <;> omega
  | nextColumn =>
    refine ⟨?_, ?_, ⟨i, ?_, hi3⟩, ?_⟩ <;>
      simp [Op.apply, App.next_column, hsel, h4] <;>
      (try split_ifs) <;> (try simp_all) <;> omega
  | previousColumn =>
    refine ⟨?_, ?_, ⟨i, ?_, hi3⟩, ?_⟩ <;>
      simp [Op.apply, App.previous_column, hsel, h4] <;>
      (try split_ifs) <;> (try simp_all) <;> omega
  | draw area =>
    by_cases hsm : area.width < 30 ∨ area.height < 10
    · refine ⟨?_, ?_, ⟨i, ?_, hi3⟩, ?_⟩ <;>
        simp [Op.apply, App.draw, hsm, hsel, h4, h1, h2]
    · refine ⟨?_, ?_, ⟨a.placement.1, ?_, ?_⟩, ?_⟩ <;>
        simp [Op.apply, App.draw, hsm, TableState.select, TableState.select_column,
          h4, h1, h2]

/-- The invariant is preserved by any sequence of operations. -/
theorem runOps_inv (ops : List Op) (a : App) (h : AppInv a) : AppInv (runOps ops a) := by
  induction ops generalizing a with
  | nil => exact h
  | cons o t ih => exact ih (Op.apply o a) (appInv_apply o a h)

/-- `App::new` satisfies the application invariant. -/
theorem appInv_new : AppInv App.new :=
  ⟨by decide, by decide, ⟨0, rfl, by decide⟩, rfl⟩

/-- C2: starting from `App::new` and applying any sequence of the four
directional operations and draw calls (on arbitrary areas), the cursor
stays within the 3×3 grid bounds, and the widget row selection is never
`None` (no unselected state once initialized). -/
theorem c2_cursor_always_in_bounds (ops : List Op) :
    (runOps ops App.new).placement.1 < 3 ∧ (runOps ops App.new).placement.2 < 3 ∧
    ∃ i, (runOps ops App.new).state.selected = some i ∧ i < 3 := by
  have h := runOps_inv ops App.new appInv_new
  exact ⟨h.1, h.2.1, h.2.2.1⟩

/-- C6 counterexample: from the coherent cursor state `(1, 1)` (widget
row selection synced to 1), `next_row` followed by `previous_row` moves
the row from 1 to 0, and `previous_row` followed by `next_row` moves it
from 1 to 2: neither round trip is the identity, because both row
operations read the widget selection, which neither of them updates. -/
theorem c6_counterexample :
    ((syncedApp.next_row).previous_row).placement.1 ≠ syncedApp.placement.1 ∧
    ((syncedApp.previous_row).next_row).placement.1 ≠ syncedApp.placement.1 := by decide

/-- C6 amended: the row round trips are the identity provided a draw on a
large-enough frame is interposed so the widget selection is resynced from
`placement[0]`; the column round trips are the identity as stated. -/
theorem c6_inverse_amended (a : App) (r c : Nat) (area : Rect)
    (hs : a.state.selected = some r) (hp : a.placement = (r, c))
    (hi : a.items.length = 3) (hr : r < 3) (hc : c < 3)
    (hw : 30 ≤ area.width) (hh : 10 ≤ area.height) :
    (((a.next_row.draw area).1).previous_row).placement.1 = r ∧
    (((a.previous_row.draw area).1).next_row).placement.1 = r ∧
    ((a.next_column).previous_column).placement.2 = c ∧
    ((a.previous_column).next_column).placement.2 = c := by
  have hbig : ¬(area.width < 30 ∨ area.height < 10) := by omega
  refine ⟨?_, ?_, ?_, ?_⟩ <;>
    simp [App.next_row, App.previous_row, App.next_column, App.previous_column, App.draw,
      TableState.select, TableState.select_column, hbig, hs, hi, hp] <;>
    (try split_ifs) <;> (try simp_all) <;> omega

/-- Witness for the amended C6 at the coherent state `(1, 1)` with an
80×24 frame. -/
theorem c6_inverse_amended_witness :
    (((syncedApp.next_row.draw bigArea).1).previous_row).placement.1 = 1 ∧
    (((syncedApp.previous_row.draw bigArea).1).next_row).placement.1 = 1 ∧
    ((syncedApp.next_column).previous_column).placement.2 = 1 ∧
    ((syncedApp.previous_column).next_column).placement.2 = 1 :=
  c6_inverse_amended syncedApp 1 1 bigArea rfl rfl rfl (by decide) (by decide)
    (by decide) (by decide)

/-- C7 counterexample: from the coherent cursor state `(1, 1)`, three
consecutive `next_row` calls land on row 2 (not back on row 1) and three
consecutive `previous_row` calls land on row 0: without redraws in
between, each call recomputes from the same stale widget selection. -/
theorem c7_counterexample :
    (((syncedApp.next_row).next_row).next_row).placement.1 ≠ syncedApp.placement.1 ∧
    (((syncedApp.previous_row).previous_row).previous_row).placement.1 ≠
      syncedApp.placement.1 := by decide

/-- C7 amended: composing a row operation three times returns to the
original row provided a draw on a large-enough frame is interposed
between consecutive calls (as the main loop does); composing a column
operation three times is the identity as stated. -/
theorem c7_cycle_amended (a : App) (r c : Nat) (area : Rect)
    (hs : a.state.selected = some r) (hp : a.placement = (r, c))
    (hi : a.items.length = 3) (hr : r < 3) (hc : c < 3)
    (hw : 30 ≤ area.width) (hh : 10 ≤ area.height) :
    ((((a.next_row.draw area).1.next_row.draw area).1).next_row).placement.1 = r ∧
    ((((a.previous_row.draw area).1.previous_row.draw area).1).previous_row).placement.1 = r ∧
    (((a.next_column).next_column).next_column).placement.2 = c ∧
    (((a.previous_column).previous_column).previous_column).placement.2 = c := by
  have hbig : ¬(area.width < 30 ∨ area.height < 10) := by omega
  refine ⟨?_, ?_, ?_, ?_⟩ <;>
    simp [App.next_row, App.previous_row, App.next_column, App.previous_column, App.draw,
      TableState.select, TableState.select_column, hbig, hs, hi, hp] <;>
    (try split_ifs) <;> (try simp_all) <;> omega

/-- Witness for the amended C7 at the coherent state `(1, 1)` with an
80×24 frame. -/
theorem c7_cycle_amended_witness :
    ((((syncedApp.next_row.draw bigArea).1.next_row.draw bigArea).1).next_row).placement.1
      = 1 ∧
    ((((syncedApp.previous_row.draw bigArea).1.previous_row.draw
      bigArea).1).previous_row).placement.1 = 1 ∧
    (((syncedApp.next_column).next_column).next_column).placement.2 = 1 ∧
    (((syncedApp.previous_column).previous_column).previous_column).placement.2 = 1 :=
  c7_cycle_amended syncedApp 1 1 bigArea rfl rfl rfl (by decide) (by decide)
    (by decide) (by decide)

/-- C3 counterexample: the warning the code renders on a too-small frame
reads `"Terminal size too small.\nMinimum size is 30x10."` (a newline and
an ASCII letter x), not `"Terminal size too small. Minimum size is
30×10."` as the claim states, so the claimed frame output is not what a
10×5 frame produces. -/
theorem c3_counterexample :
    warningText ≠ "Terminal size too small. Minimum size is 30×10." ∧
    (App.new.draw ⟨10, 5⟩).2 ≠
      [RWidget.paragraph "Terminal size too small. Minimum size is 30×10." true true
        (some Color.red)] := by decide

/-- C3 amended: for any area with width < 30 or height < 10, the frame
output is exactly one centered, word-wrapped red warning paragraph with
the text `"Terminal size too small.\nMinimum size is 30x10."`, and no
table or title is drawn; for width ≥ 30 and height ≥ 10 the title and
the table are drawn and the warning is never drawn. -/
theorem c3_render_gate_amended (a : App) (area : Rect) :
    ((area.width < 30 ∨ area.height < 10) →
      (a.draw area).2 = [RWidget.paragraph warningText true true (some Color.red)] ∧
      (∀ s, RWidget.table s ∉ (a.draw area).2) ∧
      RWidget.paragraph "You VS Bot" true false none ∉ (a.draw area).2) ∧
    (30 ≤ area.width → 10 ≤ area.height →
      (a.draw area).2 =
        [RWidget.paragraph "You VS Bot" true false none,
          RWidget.table ((a.state.select (some a.placement.1)).select_column
            (some a.placement.2))] ∧
      RWidget.paragraph warningText true true (some Color.red) ∉ (a.draw area).2) := by
  constructor
  · intro hsm
    refine ⟨?_, ?_, ?_⟩ <;> simp [App.draw, hsm]
  · intro hw hh
    have hbig : ¬(area.width < 30 ∨ area.height < 10) := by omega
    refine ⟨?_, ?_⟩ <;> simp [App.draw, hbig]

/-- Witness for the amended C3 on a 10×5 frame and on an 80×24 frame. -/
theorem c3_render_gate_amended_witness :
    (App.new.draw ⟨10, 5⟩).2 = [RWidget.paragraph warningText true true (some Color.red)] ∧
    (App.new.draw bigArea).2 =
      [RWidget.paragraph "You VS Bot" true false none, RWidget.table ⟨some 1, some 1⟩] := by
  refine ⟨((c3_render_gate_amended App.new ⟨10, 5⟩).1 (by decide)).1, ?_⟩
  have h := ((c3_render_gate_amended App.new bigArea).2 (by decide) (by decide)).1
  simpa [App.new, TableState.select, TableState.select_column, TableState.default,
    TableState.with_selected] using h

/-- C4 counterexample: the process initializes `placement` to (1, 1), not
(0, 0), and the Down, Down, Right scenario run through the main loop
(draw on a large frame before each event) ends with the cursor at (0, 2)
and the cell-highlighted value "3", not at (2, 1) with value "8". -/
theorem c4_counterexample :
    App.new.placement ≠ (0, 0) ∧
    scenarioFinal.placement ≠ (2, 1) ∧
    scenarioFinal.highlightedCell ≠ some "8" := by decide

/-- C4 amended: starting from the process's actual initial placement
(1, 1) and alternating large-frame draws with the events Down, Down,
Right as the main loop does, the cursor follows
(1, 1) → (2, 1) → (0, 1) → (0, 2), and the cell carrying the
cell-highlight after the final draw has value "3". -/
theorem c4_scenario_amended :
    App.new.placement = (1, 1) ∧
    ((App.new.draw bigArea).1.next_row).placement = (2, 1) ∧
    (((App.new.draw bigArea).1.next_row.draw bigArea).1.next_row).placement = (0, 1) ∧
    scenarioFinal.placement = (0, 2) ∧
    scenarioFinal.highlightedCell = some "3" := by decide

/-- C5: the event dispatch of the main loop acts only on key-press
events; `q`, Escape and Ctrl+C (under any modifiers for `q`/Escape)
terminate the loop with the success outcome; `s`/Down, `w`/Up, `d`/Right,
`a`/Left invoke the four directional operations; key releases, non-key
events, unmapped keys and unmapped characters (including `c` without the
control modifier) leave the state unchanged. -/
theorem c5_event_dispatch (a : App) :
    (∀ m, a.handleEvent (Event.key ⟨KeyCode.char 'q', m, KeyEventKind.press⟩) =
      StepResult.quit) ∧
    (∀ m, a.handleEvent (Event.key ⟨KeyCode.esc, m, KeyEventKind.press⟩) =
      StepResult.quit) ∧
    a.handleEvent (Event.key ⟨KeyCode.char 'c', KeyModifiers.CONTROL, KeyEventKind.press⟩) =
      StepResult.quit ∧
    (∀ m, a.handleEvent (Event.key ⟨KeyCode.char 's', m, KeyEventKind.press⟩) =
      StepResult.next a.next_row) ∧
    (∀ m, a.handleEvent (Event.key ⟨KeyCode.down, m, KeyEventKind.press⟩) =
      StepResult.next a.next_row) ∧
    (∀ m, a.handleEvent (Event.key ⟨KeyCode.char 'w', m, KeyEventKind.press⟩) =
      StepResult.next a.previous_row) ∧
    (∀ m, a.handleEvent (Event.key ⟨KeyCode.up, m, KeyEventKind.press⟩) =
      StepResult.next a.previous_row) ∧
    (∀ m, a.handleEvent (Event.key ⟨KeyCode.char 'd', m, KeyEventKind.press⟩) =
      StepResult.next a.next_column) ∧
    (∀ m, a.handleEvent (Event.key ⟨KeyCode.right, m, KeyEventKind.press⟩) =
      StepResult.next a.next_column) ∧
    (∀ m, a.handleEvent (Event.key ⟨KeyCode.char 'a', m, KeyEventKind.press⟩) =
      StepResult.next a.previous_column) ∧
    (∀ m, a.handleEvent (Event.key ⟨KeyCode.left, m, KeyEventKind.press⟩) =
      StepResult.next a.previous_column) ∧
    (∀ k : KeyEvent, k.kind ≠ KeyEventKind.press →
      a.handleEvent (Event.key k) = StepResult.next a) ∧
    (∀ w h, a.handleEvent (Event.resize w h) = StepResult.next a) ∧
    a.handleEvent Event.focusGained = StepResult.next a ∧
    (∀ m, a.handleEvent (Event.key ⟨KeyCode.enter, m, KeyEventKind.press⟩) =
      StepResult.next a) ∧
    (∀ m, a.handleEvent (Event.key ⟨KeyCode.tab, m, KeyEventKind.press⟩) =
      StepResult.next a) ∧
    (∀ c m, c ≠ 'q' → c ≠ 's' → c ≠ 'w' → c ≠ 'd' → c ≠ 'a' →
      ¬(m = KeyModifiers.CONTROL ∧ c = 'c') →
      a.handleEvent (Event.key ⟨KeyCode.char c, m, KeyEventKind.press⟩) =
        StepResult.next a) := by
  refine ⟨fun m => ?_, fun m => ?_, ?_, fun m => ?_, fun m => ?_, fun m => ?_, fun m => ?_,
    fun m => ?_, fun m => ?_, fun m => ?_, fun m => ?_, fun k hk => ?_, fun w h => ?_, ?_,
    fun m => ?_, fun m => ?_, fun c m h1 h2 h3 h4 h5 h6 => ?_⟩ <;>
    simp [App.handleEvent, *]

/-- Witness for C5: the unmapped character `x` (no modifiers) and a key
release of `s` both leave the state unchanged. -/
theorem c5_event_dispatch_witness :
    App.handleEvent App.new
      (Event.key ⟨KeyCode.char 'x', ⟨false, false, false⟩, KeyEventKind.press⟩) =
      StepResult.next App.new ∧
    App.handleEvent App.new
      (Event.key ⟨KeyCode.char 's', ⟨false, false, false⟩, KeyEventKind.release⟩) =
      StepResult.next App.new := by
  constructor
  · exact (c5_event_dispatch App.new).2.2.2.2.2.2.2.2.2.2.2.2.2.2.2.2 'x'
      ⟨false, false, false⟩ (by decide) (by decide) (by decide) (by decide) (by decide)
      (by decide)
  · exact (c5_event_dispatch App.new).2.2.2.2.2.2.2.2.2.2.2.1
      ⟨KeyCode.char 's', ⟨false, false, false⟩, KeyEventKind.release⟩ (by decide)

/-- C9 counterexample: a draw on a large frame does mutate the position
the row operations read: from `App::new` (widget selection 0, placement
(1, 1)), the draw rewrites the widget selection to `Some 1`, and
`previous_row` run after the draw yields row 0 whereas run before the
draw it yields row 2. -/
theorem c9_counterexample :
    ((App.new.draw bigArea).1).state.selected ≠ App.new.state.selected ∧
    (((App.new.draw bigArea).1).previous_row).placement.1 ≠
      (App.new.previous_row).placement.1 := by decide

/-- C9 amended: a draw never mutates `placement` (the position the
directional operations write and the column operations read), nor the
items or colors; on a too-small frame it leaves the widget state
untouched, and on a large frame it overwrites the widget selection
fields (which the row operations read) with the current `placement`,
consuming cursor state to position the highlight. -/
theorem c9_draw_effect_amended (a : App) (area : Rect) :
    ((a.draw area).1).placement = a.placement ∧
    ((a.draw area).1).items = a.items ∧
    ((a.draw area).1).colors = a.colors ∧
    ((a.draw area).1).state =
      (if area.width < 30 ∨ area.height < 10 then a.state
        else ⟨some a.placement.1, some a.placement.2⟩) := by
  by_cases hsm : area.width < 30 ∨ area.height < 10 <;>
    simp [App.draw, hsm, TableState.select, TableState.select_column]

/-- C10: the row operations compute the value written into
`placement[0]` from the widget selection alone (states agreeing on the
widget selection and the item count produce the same new row), default
it to 0 when the selection is `None`, and leave the widget state
unchanged; the widget selection is assigned from `placement[0]` only
inside a draw on a frame at least 30 wide and 10 tall, so a row move
after a too-small frame behaves exactly as if that frame had not been
drawn (it is a function of the stale widget selection, not of the
current `placement[0]`). -/
theorem c10_stale_widget_selection (a b : App) (area : Rect) :
    ((a.next_row).state = a.state ∧ (a.previous_row).state = a.state) ∧
    (a.state.selected = b.state.selected → a.items.length = b.items.length →
      (a.next_row).placement.1 = (b.next_row).placement.1 ∧
      (a.previous_row).placement.1 = (b.previous_row).placement.1) ∧
    (a.state.selected = none →
      (a.next_row).placement.1 = 0 ∧ (a.previous_row).placement.1 = 0) ∧
    ((area.width < 30 ∨ area.height < 10) →
      ((a.draw area).1).state = a.state ∧
      (((a.draw area).1).next_row).placement.1 = (a.next_row).placement.1 ∧
      (((a.draw area).1).previous_row).placement.1 = (a.previous_row).placement.1) ∧
    (30 ≤ area.width → 10 ≤ area.height →
      ((a.draw area).1).state.selected = some a.placement.1) := by
  refine ⟨⟨?_, ?_⟩, ?_, ?_, ?_, ?_⟩
  · simp [App.next_row]
  · simp [App.previous_row]
  · intro hab hlen
    constructor <;> simp [App.next_row, App.previous_row, hab, hlen]
  · intro h
    constructor <;> simp [App.next_row, App.previous_row, h]
  · intro hsm
    simp [App.draw, hsm]
  · intro hw hh
    have hbig : ¬(area.width < 30 ∨ area.height < 10) := by omega
    simp [App.draw, hbig, TableState.select, TableState.select_column]

/-- Witness for C10: a 10×5 frame leaves the widget state of `App::new`
unchanged, while an 80×24 frame rewrites its widget selection to
`Some 1` (the current `placement[0]`). -/
theorem c10_stale_widget_selection_witness :
    ((App.new.draw ⟨10, 5⟩).1).state = App.new.state ∧
    ((App.new.draw bigArea).1).state.selected = some 1 := by
  refine ⟨((c10_stale_widget_selection App.new App.new ⟨10, 5⟩).2.2.2.1 (by decide)).1, ?_⟩
  have h := (c10_stale_widget_selection App.new App.new bigArea).2.2.2.2 (by decide)
    (by decide)
  simpa [App.new] using h

end RustGame
